import Mathlib

/-!
Verification of the spectra test-instrumentation library (Go).

The Go package wraps testing.TB in an instrumented wrapper T that owns a
tracing span: wrapper methods append span events, set span status, forward
to the underlying test handle, and a cleanup hook registered at creation
finalizes the span and records metrics.  We embed the package shallowly:

* machine state that the Go code mutates (the wrapper's failed flag, the
  chronological sequence of effects on the span / metrics registry / test
  handle) becomes an explicit state record threaded through pure functions;
* each Go method becomes a Lean function on that record, translated
  line by line from the source, with calls into external collaborators
  (the test handle, the OTel span) recorded as log entries since their
  internals are outside the package;
* the Go fmt-formatting helpers (formatArgs / formatf) produce a string;
  methods here take the already-formatted message as a string argument;
* booleans that the code reads from collaborators (tb.Failed(),
  tb.Skipped(), provider construction failures) are inputs.
-/

/-- Status codes of the OTel codes package; the source uses Error and Ok. -/
inductive Code where
  | unset
  | ok
  | error
deriving DecidableEq

/-- String constants from the source file (spectra.go const block). -/
def logEventName : String := "log"

def attrMessage : String := "message"

def attrLevel : String := "level"

def attrTestName : String := "test.name"

def attrTestParent : String := "test.parent"

def attrTestStatus : String := "test.status"

def levelInfo : String := "info"

def levelError : String := "error"

def levelFatal : String := "fatal"

def levelSkip : String := "skip"

def statusPass : String := "pass"

def statusFail : String := "fail"

def statusSkip : String := "skip"

/-- Configuration snapshot (init.go, struct config).  ShutdownTimeout is in
nanoseconds as a natural number. -/
structure Config where
  ServiceName : String
  Endpoint : String
  Insecure : Bool
  ShutdownTimeout : Nat
  DisableTraces : Bool
  DisableMetrics : Bool
  DisableLogs : Bool
deriving DecidableEq

/-- Calls forwarded to the underlying testing.TB collaborator.  The string
argument is the formatted message text passed along. -/
inductive TBCall where
  | tbLog (msg : String)
  | tbLogf (msg : String)
  | tbError (msg : String)
  | tbErrorf (msg : String)
  | tbFatal (msg : String)
  | tbFatalf (msg : String)
  | tbSkip (msg : String)
  | tbSkipf (msg : String)
  | tbFailNow
  | tbSkipNow
deriving DecidableEq

/-- One observable action of the wrapper, in chronological order: effects on
its span, the write of the internal failed flag, calls forwarded to the
test handle, and records sent to the metrics instruments. -/
inductive Act where
  | spanAddEvent (name : String) (attrs : List (String × String))
  | spanSetStatus (code : Code) (message : String)
  | spanEnd
  | setFailedFlag
  | tbForward (call : TBCall)
  | metricDurationRecord (attrs : List (String × String))
  | metricCountAdd (attrs : List (String × String))
deriving DecidableEq

/-- Recognizer for the span-ending action. -/
def isSpanEnd : Act → Bool
  | Act.spanEnd => true
  | _ => false

/-- Recognizer for metric-recording actions (histogram record or counter add). -/
def isMetricAct : Act → Bool
  | Act.metricDurationRecord _ => true
  | Act.metricCountAdd _ => true
  | _ => false

/-- Recognizer for span status mutation. -/
def isSetStatus : Act → Bool
  | Act.spanSetStatus _ _ => true
  | _ => false

/-- Recognizer for forwarding calls to the underlying test handle. -/
def isForward : Act → Bool
  | Act.tbForward _ => true
  | _ => false

/-- Contexts: an opaque carrier of the current span.  tracer.Start given a
parent context and a span name yields the child context. -/
inductive Ctx where
  | background
  | spanCtx (parent : Ctx) (spanName : String)
deriving DecidableEq

/-- The wrapper T (spectra.go).  tbName models t.tb.Name(); spectra the
owning session reference (none models a nil pointer); failed the internal
lock-protected flag; log the chronological action log of this wrapper. -/
structure T where
  tbName : String
  ctx : Ctx
  spectra : Option Config
  failed : Bool
  log : List Act
deriving DecidableEq

/-- Method t.setFailed (spectra.go): take the lock and set the failed flag.
The write is recorded in the action log to reason about write ordering. -/
def T.setFailed (t : T) : T :=
  { t with failed := true, log := t.log ++ [Act.setFailedFlag] }

/-- Method t.hasFailed (spectra.go): read the failed flag under the lock. -/
def T.hasFailed (t : T) : Bool :=
  t.failed

/-- Condition guarding recordLog (spectra.go): skip the span event iff the
wrapper holds a session whose config disables logs. -/
def T.logsSuppressed (t : T) : Bool :=
  match t.spectra with
  | some cfg => cfg.DisableLogs
  | none => false

/-- Method t.recordLog (spectra.go): unless logs are disabled, add a span
event named log with message and level attributes. -/
def T.recordLog (t : T) (message level : String) : T :=
  if t.logsSuppressed then t
  else
    { t with
      log := t.log ++
        [Act.spanAddEvent logEventName [(attrMessage, message), (attrLevel, level)]] }

/-- Span status mutation t.span.SetStatus as an action-log append. -/
def T.setSpanStatus (t : T) (code : Code) (message : String) : T :=
  { t with log := t.log ++ [Act.spanSetStatus code message] }

/-- Forwarding a call to the underlying test handle t.tb. -/
def T.forward (t : T) (c : TBCall) : T :=
  { t with log := t.log ++ [Act.tbForward c] }

/-- Method t.Name (spectra.go): return t.tb.Name(). -/
def T.Name (t : T) : String :=
  t.tbName

/-- Method t.Log (spectra.go): forward to tb.Log, then record a span event
at level info. -/
def T.Log (t : T) (msg : String) : T :=
  ((t.forward (TBCall.tbLog msg)).recordLog msg levelInfo)

/-- Method t.Logf (spectra.go): forward to tb.Logf, then record a span
event at level info. -/
def T.Logf (t : T) (msg : String) : T :=
  ((t.forward (TBCall.tbLogf msg)).recordLog msg levelInfo)

/-- Method t.Error (spectra.go): set the failed flag, forward to tb.Error,
then record a span event at level error. -/
def T.Error (t : T) (msg : String) : T :=
  (((t.setFailed).forward (TBCall.tbError msg)).recordLog msg levelError)

/-- Method t.Errorf (spectra.go): set the failed flag, forward to
tb.Errorf, then record a span event at level error. -/
def T.Errorf (t : T) (msg : String) : T :=
  (((t.setFailed).forward (TBCall.tbErrorf msg)).recordLog msg levelError)

/-- Method t.Fatal (spectra.go): set the failed flag, record a span event
at level fatal, set span status Error with message test fatal, then forward
to tb.Fatal (which aborts the test and never returns). -/
def T.Fatal (t : T) (msg : String) : T :=
  ((((t.setFailed).recordLog msg levelFatal).setSpanStatus Code.error
      "test fatal").forward (TBCall.tbFatal msg))

/-- Method t.Fatalf (spectra.go): same as Fatal with a formatted message. -/
def T.Fatalf (t : T) (msg : String) : T :=
  ((((t.setFailed).recordLog msg levelFatal).setSpanStatus Code.error
      "test fatal").forward (TBCall.tbFatalf msg))

/-- Method t.Skip (spectra.go): record a span event at level skip, set span
status Ok with message test skipped, then forward to tb.Skip (which aborts
the test and never returns). -/
def T.Skip (t : T) (msg : String) : T :=
  (((t.recordLog msg levelSkip).setSpanStatus Code.ok
      "test skipped").forward (TBCall.tbSkip msg))

/-- Method t.Skipf (spectra.go): same as Skip with a formatted message. -/
def T.Skipf (t : T) (msg : String) : T :=
  (((t.recordLog msg levelSkip).setSpanStatus Code.ok
      "test skipped").forward (TBCall.tbSkipf msg))

/-- Modelled from the spec: the methods T.FailNow and T.SkipNow are absent
from src (only their tests and the testing.TB capability list mention
them); section 4.2 of the spec defines them as having the same effects as
Fatal and Skip respectively, with the fixed message test failed
(respectively test skipped) and no formatted text.  FailNow: set the
failed flag, record a level fatal event with message test failed, set span
status Error with message test failed, then forward to tb.FailNow. -/
def T.FailNow (t : T) : T :=
  ((((t.setFailed).recordLog "test failed" levelFatal).setSpanStatus Code.error
      "test failed").forward TBCall.tbFailNow)

/-- Modelled from the spec: see T.FailNow.  SkipNow: record a level skip
event with message test skipped, set span status Ok with message test
skipped, then forward to tb.SkipNow. -/
def T.SkipNow (t : T) : T :=
  (((t.recordLog "test skipped" levelSkip).setSpanStatus Code.ok
      "test skipped").forward TBCall.tbSkipNow)

/-- Definition following the words of the spec (section 4.2), for comparison
with the source-translated abort methods: the common shape of an aborting
operation is: optionally set the failed flag, append the log event, set the
span status, then forward the non-returning abort call last. -/
def abortShape (t : T) (setsFailed : Bool) (eventMsg level : String)
    (code : Code) (statusMsg : String) (fw : TBCall) : T :=
  (((if setsFailed then t.setFailed else t).recordLog eventMsg
      level).setSpanStatus code statusMsg).forward fw

/-- Method t.determineStatus (spectra.go): final status by priority.  The
collaborator reports tbFailed (t.tb.Failed()) and tbSkipped
(t.tb.Skipped()) at finalization time. -/
def T.determineStatus (t : T) (tbFailed tbSkipped : Bool) :
    Code × String × String :=
  if t.hasFailed || tbFailed then (Code.error, "test failed", statusFail)
  else if tbSkipped then (Code.ok, "test skipped", statusSkip)
  else (Code.ok, "test passed", statusPass)

/-- Function determineSubtestStatus (spectra.go): the subtest status is
derived only from the nested test's own flags. -/
def determineSubtestStatus (tbFailed tbSkipped : Bool) : Code × String :=
  if tbFailed then (Code.error, "subtest failed")
  else if tbSkipped then (Code.ok, "subtest skipped")
  else (Code.ok, "subtest passed")

/-- Function recordTestMetrics (metrics.go): a no-op when the metrics
registry was never initialized (testMetrics is nil); otherwise record the
duration into the histogram and add one to the counter, both tagged with
the test name and status. -/
def recordTestMetricsActs (testName status : String)
    (metricsInited : Bool) : List Act :=
  if !metricsInited then []
  else
    [Act.metricDurationRecord [(attrTestName, testName), (attrTestStatus, status)],
     Act.metricCountAdd [(attrTestName, testName), (attrTestStatus, status)]]

/-- The cleanup closure that Spectra.New registers via tb.Cleanup
(spectra.go): determine the final status from the wrapper's flag and the
collaborator's reports, set the span status, end the span, then record the
test metrics. -/
def newCleanup (t : T) (tbFailed tbSkipped : Bool)
    (metricsInited : Bool) : List Act :=
  let r := t.determineStatus tbFailed tbSkipped
  [Act.spanSetStatus r.1 r.2.1, Act.spanEnd] ++
    recordTestMetricsActs t.tbName r.2.2 metricsInited

/-- The cleanup closure that T.Run registers on the nested test via
innerT.Cleanup (subtest.go): set the subtest status and end the subtest
span.  It does not touch the metrics registry. -/
def subtestCleanup (tbFailed tbSkipped : Bool) : List Act :=
  let r := determineSubtestStatus tbFailed tbSkipped
  [Act.spanSetStatus r.1 r.2, Act.spanEnd]

/-- The wrapper state built by Spectra.New on success (spectra.go): a root
span started from the background context and named after the test, the
failed flag clear, and an empty action log. -/
def T.mk0 (spectra : Option Config) (tbName : String) : T :=
  { tbName := tbName
    ctx := Ctx.spanCtx Ctx.background tbName
    spectra := spectra
    failed := false
    log := [] }

/-- One call of the test body against the wrapper.  The message string is
the already-formatted text.  The constructors mirror the wrapper methods
that a test body may invoke on its span. -/
inductive Call where
  | log (msg : String)
  | logf (msg : String)
  | error (msg : String)
  | errorf (msg : String)
  | fatal (msg : String)
  | fatalf (msg : String)
  | skip (msg : String)
  | skipf (msg : String)
  | failNow
  | skipNow
deriving DecidableEq

/-- Execute one body call: the new wrapper state, and whether the call
aborts the test body (Fatal, Fatalf, Skip, Skipf, FailNow and SkipNow
forward to a non-returning collaborator capability, so nothing after them
in the body runs). -/
def execCall (c : Call) (t : T) : T × Bool :=
  match c with
  | Call.log msg => (t.Log msg, false)
  | Call.logf msg => (t.Logf msg, false)
  | Call.error msg => (t.Error msg, false)
  | Call.errorf msg => (t.Errorf msg, false)
  | Call.fatal msg => (t.Fatal msg, true)
  | Call.fatalf msg => (t.Fatalf msg, true)
  | Call.skip msg => (t.Skip msg, true)
  | Call.skipf msg => (t.Skipf msg, true)
  | Call.failNow => (t.FailNow, true)
  | Call.skipNow => (t.SkipNow, true)

/-- Execute a test body call by call, stopping at the first aborting call;
returns the wrapper state at test-scope exit and whether the body aborted. -/
def execBody : List Call → T → T × Bool
  | [], t => (t, false)
  | c :: cs, t =>
    let r := execCall c t
    if r.2 then (r.1, true) else execBody cs r.1

/-- A complete run of one test created by Spectra.New: the body executes
(possibly aborting early), then the test runner invokes the cleanup hook
registered at creation exactly once, with the collaborator reporting
tbFailedAtExit and tbSkippedAtExit.  The result is the full chronological
action log of the wrapper's span, flag and metric effects. -/
def runTest (spectra : Option Config) (tbName : String) (body : List Call)
    (tbFailedAtExit tbSkippedAtExit : Bool) (metricsInited : Bool) :
    List Act :=
  let t := (execBody body (T.mk0 spectra tbName)).1
  t.log ++ newCleanup t tbFailedAtExit tbSkippedAtExit metricsInited

/-- The session (spectra.go, struct Spectra).  Provider handles are
abstracted to presence flags plus whether their Shutdown call fails; the
one-time guard shutdownOnce becomes the onceDone flag. -/
structure Spectra where
  config : Config
  initialized : Bool
  shutdown : Bool
  onceDone : Bool
  hasTracerProvider : Bool
  tracerShutdownFails : Bool
  hasMeterProvider : Bool
  meterShutdownFails : Bool
  hasTracer : Bool
deriving DecidableEq

/-- Errors of the package (init.go var block) that the claims mention. -/
inductive SpectraErr where
  | notInitialized
  | alreadyShutdown
deriving DecidableEq

/-- Side effects of Spectra.New: starting the root span (recording the
context handed to tracer.Start, the span name and its attributes) and
registering the cleanup hook with the test handle. -/
inductive NewEffect where
  | spanStarted (parentCtx : Ctx) (name : String) (attrs : List (String × String))
  | cleanupRegistered
deriving DecidableEq

/-- Method Spectra.New (spectra.go).  The receiver may be nil (none).  On
failure no wrapper is returned and no effect occurs; on success the root
span is started from the background context, named after the test and
tagged with the test name, and exactly one cleanup hook is registered. -/
def Spectra.New (s : Option Spectra) (tbName : String) :
    Except SpectraErr T × List NewEffect :=
  match s with
  | none => (Except.error SpectraErr.notInitialized, [])
  | some st =>
    if !st.initialized then (Except.error SpectraErr.notInitialized, [])
    else if st.shutdown then (Except.error SpectraErr.alreadyShutdown, [])
    else
      (Except.ok (T.mk0 (some st.config) tbName),
       [NewEffect.spanStarted Ctx.background tbName [(attrTestName, tbName)],
        NewEffect.cleanupRegistered])

/-- Side effects of Spectra.Shutdown: shutting down a provider, and log
lines written when a provider's release fails.  There is no error return
and no panic path. -/
inductive ShutdownEffect where
  | tracerProviderShutdown
  | meterProviderShutdown
  | logLine (msg : String)
deriving DecidableEq

/-- Method Spectra.Shutdown (spectra.go): the body runs under
shutdownOnce.Do, so it executes only when the guard has not fired; it sets
the shutdown flag under the write lock, then releases the tracer provider
and the meter provider if present, logging (and otherwise discarding) any
release failure. -/
def Spectra.Shutdown (s : Spectra) : Spectra × List ShutdownEffect :=
  if s.onceDone then (s, [])
  else
    ({ s with onceDone := true, shutdown := true },
     (if s.hasTracerProvider then
        ShutdownEffect.tracerProviderShutdown ::
          (if s.tracerShutdownFails then
            [ShutdownEffect.logLine "spectra: failed to shutdown tracer provider"]
          else [])
      else []) ++
     (if s.hasMeterProvider then
        ShutdownEffect.meterProviderShutdown ::
          (if s.meterShutdownFails then
            [ShutdownEffect.logLine "spectra: failed to shutdown meter provider"]
          else [])
      else []))

/-- Iterated Shutdown: n successive calls on the same value, collecting all
effects in order. -/
def shutdownTimes : Nat → Spectra → Spectra × List ShutdownEffect
  | 0, s => (s, [])
  | n + 1, s =>
    let r := Spectra.Shutdown s
    let r2 := shutdownTimes n r.1
    (r2.1, r.2 ++ r2.2)

/-- Process-wide metrics registry state (metrics.go): the metricsOnce guard
and the testMetrics pointer, together with a counter of how many complete
instrument sets were ever constructed (for the exactly-once property). -/
structure MetricsGlobals where
  onceDone : Bool
  testMetricsSet : Bool
  createdCount : Nat
deriving DecidableEq

/-- Instrument-construction errors of initMetrics (metrics.go), by the
instrument whose creation the provider rejected. -/
inductive MetricsErr where
  | createDurationHistogram
  | createCountCounter
deriving DecidableEq

/-- Method Spectra.initMetrics (metrics.go): the body runs under
metricsOnce.Do.  The local variable initErr starts nil on every call, so a
call that finds the guard already fired returns nil whatever happened in
the single execution.  When the body runs: the duration histogram is
created first (failing with a histogram error if the provider rejects it),
then the count counter (failing with a counter error), and only on full
success is the testMetrics instrument set installed.  histErr and cntErr
are the provider's rejections of the two instruments. -/
def initMetrics (g : MetricsGlobals) (histErr cntErr : Bool) :
    MetricsGlobals × Option MetricsErr :=
  if g.onceDone then (g, none)
  else if histErr then
    ({ g with onceDone := true }, some MetricsErr.createDurationHistogram)
  else if cntErr then
    ({ g with onceDone := true }, some MetricsErr.createCountCounter)
  else
    ({ onceDone := true, testMetricsSet := true,
       createdCount := g.createdCount + 1 }, none)

/-- The registry state before any initialization: guard not fired, no
instruments (the zero value of the package globals). -/
def metricsGlobals0 : MetricsGlobals :=
  { onceDone := false, testMetricsSet := false, createdCount := 0 }

/-- A sequence of initMetrics invocations (one per Spectra instance calling
it), each with its provider rejection flags, collecting the returned
errors in order. -/
def initMetricsSeq : List (Bool × Bool) → MetricsGlobals →
    MetricsGlobals × List (Option MetricsErr)
  | [], g => (g, [])
  | p :: ps, g =>
    let r := initMetrics g p.1 p.2
    let r2 := initMetricsSeq ps r.1
    (r2.1, r.2 :: r2.2)

/-- Result of a successful nested invocation in T.Run (subtest.go): the
context handed to tracer.Start for the child span (the parent wrapper's
context), the child span's name and attributes, the child wrapper handed
to the caller's function, and the cleanup actions registered on the nested
test. -/
structure SubtestRun where
  parentCtxArg : Ctx
  spanName : String
  spanAttrs : List (String × String)
  child : T
  cleanupActs : List Act
deriving DecidableEq

/-- Method T.Run (subtest.go).  handleIsTestingT is whether the type
assertion of the underlying handle to a nested-invocation-capable handle
succeeds; when it fails, Run forces a Fatal on the parent and returns
false.  On success the nested test's full name is the parent name, a
slash, and the child name (the naming contract of the test-runner
collaborator); the child span is started under the parent wrapper's
context with test name and parent attributes; the hook registered on the
nested test is subtestCleanup applied to the nested test's own flags at
its exit; Run returns the nested invocation's own result runnerRet. -/
def T.Run (t : T) (childName : String) (handleIsTestingT : Bool)
    (childFailedAtExit childSkippedAtExit : Bool) (runnerRet : Bool) :
    T × Option SubtestRun × Bool :=
  if handleIsTestingT then
    let fullName := t.Name ++ "/" ++ childName
    (t,
     some
       { parentCtxArg := t.ctx
         spanName := fullName
         spanAttrs := [(attrTestName, fullName), (attrTestParent, t.Name)]
         child :=
           { tbName := fullName
             ctx := Ctx.spanCtx t.ctx fullName
             spectra := t.spectra
             failed := false
             log := [] }
         cleanupActs := subtestCleanup childFailedAtExit childSkippedAtExit },
     runnerRet)
  else
    (t.Fatal "spectra: Run() requires *testing.T, not *testing.B", none, false)

@[simp]
lemma T.spectra_setFailed (t : T) : (t.setFailed).spectra = t.spectra := rfl

@[simp]
lemma T.spectra_forward (t : T) (c : TBCall) : (t.forward c).spectra = t.spectra := rfl

@[simp]
lemma T.spectra_setSpanStatus (t : T) (c : Code) (m : String) :
    (t.setSpanStatus c m).spectra = t.spectra := rfl

@[simp]
lemma T.spectra_recordLog (t : T) (m l : String) :
    (t.recordLog m l).spectra = t.spectra := by
  unfold T.recordLog
  split <;> rfl

@[simp]
lemma T.logsSuppressed_setFailed (t : T) :
    (t.setFailed).logsSuppressed = t.logsSuppressed := rfl

@[simp]
lemma T.logsSuppressed_forward (t : T) (c : TBCall) :
    (t.forward c).logsSuppressed = t.logsSuppressed := rfl

@[simp]
lemma T.logsSuppressed_recordLog (t : T) (m l : String) :
    (t.recordLog m l).logsSuppressed = t.logsSuppressed := by
  unfold T.logsSuppressed
  rw [T.spectra_recordLog]

@[simp]
lemma T.log_setFailed (t : T) : (t.setFailed).log = t.log ++ [Act.setFailedFlag] := rfl

@[simp]
lemma T.log_forward (t : T) (c : TBCall) :
    (t.forward c).log = t.log ++ [Act.tbForward c] := rfl

@[simp]
lemma T.log_setSpanStatus (t : T) (c : Code) (m : String) :
    (t.setSpanStatus c m).log = t.log ++ [Act.spanSetStatus c m] := rfl

lemma T.log_recordLog (t : T) (m l : String) :
    (t.recordLog m l).log =
      t.log ++
        (if t.logsSuppressed then []
         else [Act.spanAddEvent logEventName [(attrMessage, m), (attrLevel, l)]]) := by
  unfold T.recordLog
  split <;> simp_all

@[simp]
lemma T.failed_forward (t : T) (c : TBCall) : (t.forward c).failed = t.failed := rfl

@[simp]
lemma T.failed_setSpanStatus (t : T) (c : Code) (m : String) :
    (t.setSpanStatus c m).failed = t.failed := rfl

@[simp]
lemma T.failed_setFailed (t : T) : (t.setFailed).failed = true := rfl

@[simp]
lemma T.failed_recordLog (t : T) (m l : String) :
    (t.recordLog m l).failed = t.failed := by
  unfold T.recordLog
  split <;> rfl

@[simp]
lemma T.tbName_setFailed (t : T) : (t.setFailed).tbName = t.tbName := rfl

@[simp]
lemma T.tbName_forward (t : T) (c : TBCall) : (t.forward c).tbName = t.tbName := rfl

@[simp]
lemma T.tbName_setSpanStatus (t : T) (c : Code) (m : String) :
    (t.setSpanStatus c m).tbName = t.tbName := rfl

@[simp]
lemma T.tbName_recordLog (t : T) (m l : String) :
    (t.recordLog m l).tbName = t.tbName := by
  unfold T.recordLog
  split <;> rfl

lemma countP_recordLog_event (p : Act → Bool)
    (hp : ∀ n a, p (Act.spanAddEvent n a) = false) (t : T) (m l : String) :
    List.countP p (t.recordLog m l).log = List.countP p t.log := by
  rw [T.log_recordLog, List.countP_append]
  split <;> simp [List.countP_cons, hp]

lemma execCall_countP (p : Act → Bool)
    (hEv : ∀ n a, p (Act.spanAddEvent n a) = false)
    (hSt : ∀ c m, p (Act.spanSetStatus c m) = false)
    (hFl : p Act.setFailedFlag = false)
    (hFw : ∀ c, p (Act.tbForward c) = false)
    (c : Call) (t : T) :
    List.countP p ((execCall c t).1).log = List.countP p t.log := by
  cases c <;>
    simp [execCall, T.Log, T.Logf, T.Error, T.Errorf, T.Fatal, T.Fatalf,
      T.Skip, T.Skipf, T.FailNow, T.SkipNow,
      countP_recordLog_event p hEv, List.countP_append, List.countP_cons,
      hSt, hFl, hFw]

lemma execBody_countP (p : Act → Bool)
    (hEv : ∀ n a, p (Act.spanAddEvent n a) = false)
    (hSt : ∀ c m, p (Act.spanSetStatus c m) = false)
    (hFl : p Act.setFailedFlag = false)
    (hFw : ∀ c, p (Act.tbForward c) = false) :
    ∀ (body : List Call) (t : T),
      List.countP p ((execBody body t).1).log = List.countP p t.log := by
  intro body
  induction body with
  | nil => intro t; rfl
  | cons c cs ih =>
    intro t
    show List.countP p ((if (execCall c t).2 then ((execCall c t).1, true)
      else execBody cs (execCall c t).1).1).log = _
    split
    · exact execCall_countP p hEv hSt hFl hFw c t
    · rw [ih ((execCall c t).1), execCall_countP p hEv hSt hFl hFw c t]

lemma execBody_no_spanEnd (body : List Call) (cfg : Option Config) (nm : String) :
    List.countP isSpanEnd ((execBody body (T.mk0 cfg nm)).1).log = 0 := by
  rw [execBody_countP isSpanEnd (by intro n a; rfl) (by intro c m; rfl) rfl
    (by intro c; rfl) body (T.mk0 cfg nm)]
  rfl

lemma execBody_no_metric (body : List Call) (cfg : Option Config) (nm : String) :
    List.countP isMetricAct ((execBody body (T.mk0 cfg nm)).1).log = 0 := by
  rw [execBody_countP isMetricAct (by intro n a; rfl) (by intro c m; rfl) rfl
    (by intro c; rfl) body (T.mk0 cfg nm)]
  rfl

lemma execCall_failed_mono (c : Call) (t : T) (h : t.failed = true) :
    ((execCall c t).1).failed = true := by
  cases c <;>
    simp [execCall, T.Log, T.Logf, T.Error, T.Errorf, T.Fatal, T.Fatalf,
      T.Skip, T.Skipf, T.FailNow, T.SkipNow, h]

lemma execBody_failed_mono :
    ∀ (body : List Call) (t : T), t.failed = true →
      ((execBody body t).1).failed = true := by
  intro body
  induction body with
  | nil => intro t h; exact h
  | cons c cs ih =>
    intro t h
    show ((if (execCall c t).2 then ((execCall c t).1, true)
      else execBody cs (execCall c t).1).1).failed = true
    split
    · exact execCall_failed_mono c t h
    · exact ih ((execCall c t).1) (execCall_failed_mono c t h)

lemma execCall_tbName (c : Call) (t : T) :
    ((execCall c t).1).tbName = t.tbName := by
  cases c <;>
    simp [execCall, T.Log, T.Logf, T.Error, T.Errorf, T.Fatal, T.Fatalf,
      T.Skip, T.Skipf, T.FailNow, T.SkipNow]

lemma execBody_tbName :
    ∀ (body : List Call) (t : T), ((execBody body t).1).tbName = t.tbName := by
  intro body
  induction body with
  | nil => intro t; rfl
  | cons c cs ih =>
    intro t
    show ((if (execCall c t).2 then ((execCall c t).1, true)
      else execBody cs (execCall c t).1).1).tbName = t.tbName
    split
    · exact execCall_tbName c t
    · rw [ih ((execCall c t).1), execCall_tbName c t]

lemma execBody_append (l1 l2 : List Call) (t : T) :
    execBody (l1 ++ l2) t =
      if (execBody l1 t).2 = true then execBody l1 t
      else execBody l2 (execBody l1 t).1 := by
  induction l1 generalizing t with
  | nil => simp [execBody]
  | cons c cs ih =>
    show execBody (c :: (cs ++ l2)) t = _
    show (if (execCall c t).2 then ((execCall c t).1, true)
      else execBody (cs ++ l2) (execCall c t).1) = _
    by_cases h : (execCall c t).2
    · simp [h, execBody]
    · simp only [h]
      rw [ih ((execCall c t).1)]
      simp [execBody, h]

/-- Recognizer for the tracer-provider release effect. -/
def isTracerShutdown : ShutdownEffect → Bool
  | ShutdownEffect.tracerProviderShutdown => true
  | _ => false

/-- Recognizer for the meter-provider release effect. -/
def isMeterShutdown : ShutdownEffect → Bool
  | ShutdownEffect.meterProviderShutdown => true
  | _ => false

/-- Recognizer for the cleanup-registration effect of Spectra.New. -/
def isCleanupRegistered : NewEffect → Bool
  | NewEffect.cleanupRegistered => true
  | _ => false

lemma shutdown_onceDone (s : Spectra) : ((Spectra.Shutdown s).1).onceDone = true := by
  unfold Spectra.Shutdown
  by_cases h : s.onceDone
  · simp [h]
  · simp [h]

lemma shutdown_of_onceDone (s : Spectra) (h : s.onceDone = true) :
    Spectra.Shutdown s = (s, []) := by
  unfold Spectra.Shutdown
  simp [h]

lemma shutdownTimes_of_onceDone (n : Nat) (s : Spectra) (h : s.onceDone = true) :
    shutdownTimes n s = (s, []) := by
  induction n with
  | zero => rfl
  | succ m ih =>
    show (let r := Spectra.Shutdown s
      let r2 := shutdownTimes m r.1
      (r2.1, r.2 ++ r2.2)) = (s, [])
    rw [shutdown_of_onceDone s h]
    simpa using ih

lemma initMetrics_invariant (g : MetricsGlobals) (h c : Bool)
    (hg : (g.onceDone = false → g.createdCount = 0) ∧ g.createdCount ≤ 1) :
    ((initMetrics g h c).1.onceDone = false → (initMetrics g h c).1.createdCount = 0) ∧
      (initMetrics g h c).1.createdCount ≤ 1 := by
  unfold initMetrics
  by_cases h1 : g.onceDone
  · simp [h1, hg]
  · have h0 : g.createdCount = 0 := hg.1 (by simp [h1])
    by_cases h2 : h <;> by_cases h3 : c <;> simp [h1, h2, h3, h0]

lemma initMetricsSeq_invariant :
    ∀ (calls : List (Bool × Bool)) (g : MetricsGlobals),
      (g.onceDone = false → g.createdCount = 0) ∧ g.createdCount ≤ 1 →
      ((initMetricsSeq calls g).1.onceDone = false →
          (initMetricsSeq calls g).1.createdCount = 0) ∧
        (initMetricsSeq calls g).1.createdCount ≤ 1 := by
  intro calls
  induction calls with
  | nil => intro g hg; exact hg
  | cons p ps ih =>
    intro g hg
    show ((let r := initMetrics g p.1 p.2
      let r2 := initMetricsSeq ps r.1
      (r2.1, r.2 :: r2.2)).1.onceDone = false → _) ∧ _
    exact ih ((initMetrics g p.1 p.2).1) (initMetrics_invariant g p.1 p.2 hg)

/-- Default shutdown timeout (init.go): five seconds in nanoseconds. -/
def defaultShutdownTimeout : Nat := 5000000000

/-- Configuration validation errors (init.go var block). -/
inductive ConfigErr where
  | missingServiceName
  | missingEndpoint
deriving DecidableEq

/-- Errors of Init (init.go), by the step that failed. -/
inductive InitErr where
  | invalidConfig (e : ConfigErr)
  | createResource
  | setupTracing
  | setupMetrics
deriving DecidableEq

/-- Function validateConfig (init.go): required fields, default timeout. -/
def validateConfig (cfg : Config) : Except ConfigErr Config :=
  if cfg.ServiceName = "" then Except.error ConfigErr.missingServiceName
  else if cfg.Endpoint = "" then Except.error ConfigErr.missingEndpoint
  else
    Except.ok
      { cfg with
        ShutdownTimeout :=
          if cfg.ShutdownTimeout = 0 then defaultShutdownTimeout
          else cfg.ShutdownTimeout }

/-- Function parseProtocol (init.go): split the endpoint scheme; none models
ErrInvalidEndpoint. -/
def parseProtocol (endpoint : String) : Option (String × String) :=
  if endpoint.startsWith "grpc://" then some ("grpc", endpoint.drop 7)
  else if endpoint.startsWith "http://" then some ("http", endpoint.drop 7)
  else if endpoint.startsWith "https://" then some ("https", endpoint.drop 8)
  else none

/-- Whether setupTracing (init.go) fails: an invalid endpoint scheme or a
failing exporter construction (the latter a collaborator outcome, given as
a boolean). -/
def setupTracingFails (endpoint : String) (exporterErr : Bool) : Bool :=
  match parseProtocol endpoint with
  | none => true
  | some _ => exporterErr

/-- Whether setupMetrics (init.go) fails before reaching initMetrics: an
invalid endpoint scheme or a failing exporter construction. -/
def setupMetricsExporterFails (endpoint : String) (exporterErr : Bool) : Bool :=
  match parseProtocol endpoint with
  | none => true
  | some _ => exporterErr

/-- Function Init (init.go): validate the config, build the resource, set up
tracing and metrics per the disable flags, and return a Spectra with the
initialized flag set.  Collaborator outcomes are the boolean inputs:
resourceErr (resource construction), traceExporterErr / metricExporterErr
(exporter construction), histErr / cntErr (instrument creation inside
initMetrics), tracerReleaseFails / meterReleaseFails (what the providers
will do when later released).  The metrics registry globals g thread
through, since setupMetrics calls sp.initMetrics. -/
def Init (cfg : Config)
    (resourceErr traceExporterErr metricExporterErr histErr cntErr
      tracerReleaseFails meterReleaseFails : Bool)
    (g : MetricsGlobals) : Except InitErr Spectra × MetricsGlobals :=
  match validateConfig cfg with
  | Except.error e => (Except.error (InitErr.invalidConfig e), g)
  | Except.ok vcfg =>
    if resourceErr then (Except.error InitErr.createResource, g)
    else if !vcfg.DisableTraces && setupTracingFails vcfg.Endpoint traceExporterErr then
      (Except.error InitErr.setupTracing, g)
    else if !vcfg.DisableMetrics then
      if setupMetricsExporterFails vcfg.Endpoint metricExporterErr then
        (Except.error InitErr.setupMetrics, g)
      else
        let r := initMetrics g histErr cntErr
        match r.2 with
        | some _ => (Except.error InitErr.setupMetrics, r.1)
        | none =>
          (Except.ok
            { config := vcfg
              initialized := true
              shutdown := false
              onceDone := false
              hasTracerProvider := !vcfg.DisableTraces
              tracerShutdownFails := tracerReleaseFails
              hasMeterProvider := true
              meterShutdownFails := meterReleaseFails
              hasTracer := !vcfg.DisableTraces }, r.1)
    else
      (Except.ok
        { config := vcfg
          initialized := true
          shutdown := false
          onceDone := false
          hasTracerProvider := !vcfg.DisableTraces
          tracerShutdownFails := tracerReleaseFails
          hasMeterProvider := false
          meterShutdownFails := meterReleaseFails
          hasTracer := !vcfg.DisableTraces }, g)

/-- C2: for every combination of the wrapper's internal failed flag and the
collaborator's Failed and Skipped reports, determineStatus resolves by
priority: internal failed or reported failed gives Error with message test
failed and metric label fail; else reported skipped gives Ok with test
skipped and label skip; else Ok with test passed and label pass. -/
theorem determineStatus_resolves_by_priority (t : T) (tbF tbS : Bool) :
    (t.failed = true ∨ tbF = true →
      t.determineStatus tbF tbS = (Code.error, "test failed", statusFail))
    ∧ (t.failed = false → tbF = false → tbS = true →
      t.determineStatus tbF tbS = (Code.ok, "test skipped", statusSkip))
    ∧ (t.failed = false → tbF = false → tbS = false →
      t.determineStatus tbF tbS = (Code.ok, "test passed", statusPass)) := by
  refine ⟨?_, ?_, ?_⟩
  · intro h
    rcases h with h | h <;> simp [T.determineStatus, T.hasFailed, h]
  · intro h1 h2 h3
    simp [T.determineStatus, T.hasFailed, h1, h2, h3]
  · intro h1 h2 h3
    simp [T.determineStatus, T.hasFailed, h1, h2, h3]

/-- Witness for C2 at concrete inputs: internal flag set with the
collaborator reporting neither failed nor skipped forces the failed
outcome; a clean wrapper with a skipped report gives the skip outcome. -/
theorem determineStatus_resolves_by_priority_witness :
    T.determineStatus
        { tbName := "TestX", ctx := Ctx.background, spectra := none,
          failed := true, log := [] } false false =
      (Code.error, "test failed", statusFail)
    ∧ T.determineStatus
        { tbName := "TestX", ctx := Ctx.background, spectra := none,
          failed := false, log := [] } false true =
      (Code.ok, "test skipped", statusSkip) :=
  ⟨(determineStatus_resolves_by_priority
      { tbName := "TestX", ctx := Ctx.background, spectra := none,
        failed := true, log := [] } false false).1 (Or.inl rfl),
   (determineStatus_resolves_by_priority
      { tbName := "TestX", ctx := Ctx.background, spectra := none,
        failed := false, log := [] } false true).2.1 rfl rfl rfl⟩

/-- C4: Fatal and Fatalf perform all bookkeeping writes, that is the failed
flag write, the level fatal log event (when log capture is enabled) and
the span status Error with message test fatal, strictly before the final
forwarding call to the underlying test handle, which is the last action. -/
theorem fatal_bookkeeping_precedes_forward (t : T) (msg : String) :
    (t.Fatal msg).log =
      t.log ++ [Act.setFailedFlag] ++
        (if t.logsSuppressed then []
         else [Act.spanAddEvent logEventName
            [(attrMessage, msg), (attrLevel, levelFatal)]]) ++
        [Act.spanSetStatus Code.error "test fatal",
         Act.tbForward (TBCall.tbFatal msg)]
    ∧ (t.Fatal msg).failed = true
    ∧ (t.Fatalf msg).log =
      t.log ++ [Act.setFailedFlag] ++
        (if t.logsSuppressed then []
         else [Act.spanAddEvent logEventName
            [(attrMessage, msg), (attrLevel, levelFatal)]]) ++
        [Act.spanSetStatus Code.error "test fatal",
         Act.tbForward (TBCall.tbFatalf msg)]
    ∧ (t.Fatalf msg).failed = true := by
  refine ⟨?_, by simp [T.Fatal], ?_, by simp [T.Fatalf]⟩ <;>
    by_cases h : t.logsSuppressed <;>
      simp [T.Fatal, T.Fatalf, T.log_recordLog, h]

/-- C5: the FailNow and SkipNow operations (modelled from the spec, they are
absent from src) have exactly the effects of Fatal and Skip respectively
with a fixed event and status message, test failed for FailNow and test
skipped for SkipNow, and no formatted text: all four operations factor
through the common abort shape with only the flag setting, messages and
forwarded call differing. -/
theorem failNow_skipNow_match_fatal_skip (t : T) (msg : String) :
    t.FailNow =
      abortShape t true "test failed" levelFatal Code.error "test failed"
        TBCall.tbFailNow
    ∧ t.Fatal msg =
      abortShape t true msg levelFatal Code.error "test fatal"
        (TBCall.tbFatal msg)
    ∧ t.SkipNow =
      abortShape t false "test skipped" levelSkip Code.ok "test skipped"
        TBCall.tbSkipNow
    ∧ t.Skip msg =
      abortShape t false msg levelSkip Code.ok "test skipped"
        (TBCall.tbSkip msg) :=
  ⟨rfl, rfl, rfl, rfl⟩

/-- C10: the cleanup hook that Run registers for a subtest only sets the
subtest status and ends the span, never touching the metrics registry:
it contains zero metric actions for every flag combination.  The test
body itself also records no metrics; the two metric records (duration and
count) occur only in the cleanup registered by Spectra.New, and only when
the registry is initialized. -/
theorem subtest_cleanup_records_no_metrics (f s : Bool) (t : T)
    (tbF tbS : Bool) (body : List Call) (cfg : Option Config) (nm : String) :
    subtestCleanup f s =
      [Act.spanSetStatus (determineSubtestStatus f s).1
        (determineSubtestStatus f s).2, Act.spanEnd]
    ∧ List.countP isMetricAct (subtestCleanup f s) = 0
    ∧ List.countP isMetricAct (newCleanup t tbF tbS true) = 2
    ∧ List.countP isMetricAct (newCleanup t tbF tbS false) = 0
    ∧ List.countP isMetricAct ((execBody body (T.mk0 cfg nm)).1).log = 0 := by
  refine ⟨rfl, ?_, ?_, ?_, execBody_no_metric body cfg nm⟩
  · simp [subtestCleanup, List.countP_cons, isMetricAct]
  · simp [newCleanup, recordTestMetricsActs, List.countP_append,
      List.countP_cons, isMetricAct]
  · simp [newCleanup, recordTestMetricsActs, List.countP_append,
      List.countP_cons, isMetricAct]

/-- C1: for a wrapper created by Spectra.New, the finalization registered at
creation runs exactly once at test-scope exit, whatever way the body
exits (normal return or an aborting Fatal, Fatalf, Skip, Skipf, FailNow or
SkipNow call stopping the body early), and its steps appear in strict
order at the very end of the run: the final span status is set, then the
span ends, then the metrics are recorded.  The body emits no span end and
no metric record of its own, the whole run ends the span exactly once,
the metric actions carry no status mutation after the span end, and
Spectra.New registers exactly one cleanup hook (and none on failure). -/
theorem finalization_once_in_strict_order (cfg : Option Config) (nm : String)
    (body : List Call) (tbF tbS mi : Bool) (st : Spectra) :
    runTest cfg nm body tbF tbS mi =
      ((execBody body (T.mk0 cfg nm)).1).log ++
        [Act.spanSetStatus
            (((execBody body (T.mk0 cfg nm)).1).determineStatus tbF tbS).1
            (((execBody body (T.mk0 cfg nm)).1).determineStatus tbF tbS).2.1,
          Act.spanEnd] ++
        recordTestMetricsActs nm
          (((execBody body (T.mk0 cfg nm)).1).determineStatus tbF tbS).2.2 mi
    ∧ List.countP isSpanEnd (runTest cfg nm body tbF tbS mi) = 1
    ∧ List.countP isSpanEnd (((execBody body (T.mk0 cfg nm)).1).log) = 0
    ∧ List.countP isMetricAct (((execBody body (T.mk0 cfg nm)).1).log) = 0
    ∧ List.countP isSetStatus
        (recordTestMetricsActs nm
          (((execBody body (T.mk0 cfg nm)).1).determineStatus tbF tbS).2.2 mi) = 0
    ∧ List.countP isCleanupRegistered (Spectra.New (some st) nm).2 =
        (if st.initialized && !st.shutdown then 1 else 0) := by
  refine ⟨?_, ?_, execBody_no_spanEnd body cfg nm,
    execBody_no_metric body cfg nm, ?_, ?_⟩
  · show ((execBody body (T.mk0 cfg nm)).1).log ++
      newCleanup (execBody body (T.mk0 cfg nm)).1 tbF tbS mi = _
    rw [newCleanup, execBody_tbName body (T.mk0 cfg nm)]
    simp [T.mk0]
  · show List.countP isSpanEnd (((execBody body (T.mk0 cfg nm)).1).log ++
      newCleanup (execBody body (T.mk0 cfg nm)).1 tbF tbS mi) = 1
    rw [List.countP_append, execBody_no_spanEnd body cfg nm, newCleanup,
      List.countP_append]
    cases mi <;>
      simp [recordTestMetricsActs, List.countP_cons, isSpanEnd]
  · cases mi <;> simp [recordTestMetricsActs, List.countP_cons, isSetStatus]
  · by_cases h1 : st.initialized <;> by_cases h2 : st.shutdown <;>
      simp [Spectra.New, h1, h2, List.countP_cons, isCleanupRegistered]

/-- C3: a test whose executed body invokes Error or Errorf at least once
finalizes with span status Error, message test failed and metric label
fail, for every value of the collaborator's Failed report, in particular
when it is false: the internal failed flag set by Error or Errorf alone
forces the failed outcome. -/
theorem error_alone_forces_failed_outcome (cfg : Option Config) (nm msg : String)
    (pre post : List Call) (c : Call) (tbF tbS mi : Bool)
    (hc : c = Call.error msg ∨ c = Call.errorf msg)
    (hpre : (execBody pre (T.mk0 cfg nm)).2 = false) :
    ((execBody (pre ++ c :: post) (T.mk0 cfg nm)).1).failed = true
    ∧ runTest cfg nm (pre ++ c :: post) tbF tbS mi =
      ((execBody (pre ++ c :: post) (T.mk0 cfg nm)).1).log ++
        [Act.spanSetStatus Code.error "test failed", Act.spanEnd] ++
        recordTestMetricsActs nm statusFail mi := by
  have hfull : ((execBody (pre ++ c :: post) (T.mk0 cfg nm)).1).failed = true := by
    rw [execBody_append, hpre]
    simp only [if_false, Bool.false_eq_true]
    rcases hc with h | h <;> subst h <;>
      · show ((if (execCall _ ((execBody pre (T.mk0 cfg nm)).1)).2 then _
          else execBody post (execCall _ ((execBody pre (T.mk0 cfg nm)).1)).1).1).failed = true
        simp only [execCall]
        exact execBody_failed_mono post _ (by simp [T.Error, T.Errorf])
  refine ⟨hfull, ?_⟩
  show ((execBody (pre ++ c :: post) (T.mk0 cfg nm)).1).log ++
    newCleanup (execBody (pre ++ c :: post) (T.mk0 cfg nm)).1 tbF tbS mi = _
  rw [newCleanup, execBody_tbName (pre ++ c :: post) (T.mk0 cfg nm)]
  have hds : ((execBody (pre ++ c :: post) (T.mk0 cfg nm)).1).determineStatus tbF tbS =
      (Code.error, "test failed", statusFail) := by
    simp [T.determineStatus, T.hasFailed, hfull]
  rw [hds]
  simp [T.mk0]

/-- Witness for C3 at a concrete input: a body consisting of a single Error
call, with the collaborator reporting neither failed nor skipped at exit
and the metrics registry initialized, yields the failed flag and the
failed finalization with metric label fail. -/
theorem error_alone_forces_failed_outcome_witness :
    ((execBody ([] ++ Call.error "boom" :: []) (T.mk0 none "TestX")).1).failed = true
    ∧ runTest none "TestX" ([] ++ Call.error "boom" :: []) false false true =
      ((execBody ([] ++ Call.error "boom" :: []) (T.mk0 none "TestX")).1).log ++
        [Act.spanSetStatus Code.error "test failed", Act.spanEnd] ++
        recordTestMetricsActs "TestX" statusFail true :=
  error_alone_forces_failed_outcome none "TestX" "boom" [] [] (Call.error "boom")
    false false true (Or.inl rfl) rfl

/-- C6: Spectra.New fails with the not-initialized error when the receiver
is nil or its initialized flag is clear, fails with the already-shutdown
error when shutdown has occurred, and in each failure case returns no
wrapper and produces no effect at all, in particular it starts no span and
registers no cleanup.  Every Spectra that Init returns successfully has
the initialized flag set (so only values not built by Init can trigger the
not-initialized failure). -/
theorem new_fails_without_session (s : Option Spectra) (nm : String)
    (cfg : Config) (rE tE mE hE cE tsf msf : Bool) (g : MetricsGlobals) :
    (s = none →
      Spectra.New s nm = (Except.error SpectraErr.notInitialized, []))
    ∧ (∀ st : Spectra, s = some st → st.initialized = false →
      Spectra.New s nm = (Except.error SpectraErr.notInitialized, []))
    ∧ (∀ st : Spectra, s = some st → st.initialized = true →
        st.shutdown = true →
      Spectra.New s nm = (Except.error SpectraErr.alreadyShutdown, []))
    ∧ (∀ (sp : Spectra) (g2 : MetricsGlobals),
        Init cfg rE tE mE hE cE tsf msf g = (Except.ok sp, g2) →
        sp.initialized = true ∧ sp.shutdown = false) := by
  refine ⟨?_, ?_, ?_, ?_⟩
  · intro h
    subst h
    rfl
  · intro st h h2
    subst h
    simp [Spectra.New, h2]
  · intro st h h2 h3
    subst h
    simp [Spectra.New, h2, h3]
  · intro sp g2 h
    unfold Init at h
    split at h
    · simp at h
    · split at h
      · simp at h
      · split at h
        · simp at h
        · split at h
          · split at h
            · simp at h
            · rcases hr : (initMetrics g hE cE).2 with _ | v
              · simp only [hr] at h
                simp only [Prod.mk.injEq, Except.ok.injEq] at h
                obtain ⟨hsp, hg⟩ := h
                subst hsp
                exact ⟨rfl, rfl⟩
              · simp only [hr] at h
                simp at h
          · simp only [Prod.mk.injEq, Except.ok.injEq] at h
            obtain ⟨hsp, hg⟩ := h
            subst hsp
            exact ⟨rfl, rfl⟩

/-- Witness for C6 at concrete inputs: a nil receiver and a zero-value
(uninitialized) session both fail with the not-initialized error and no
effects; a session built by hand with initialized and shutdown both set
fails with the already-shutdown error and no effects; a successful Init
yields a session with initialized set. -/
theorem new_fails_without_session_witness :
    Spectra.New none "TestX" = (Except.error SpectraErr.notInitialized, [])
    ∧ Spectra.New
        (some
          { config :=
              { ServiceName := "", Endpoint := "", Insecure := false,
                ShutdownTimeout := 0, DisableTraces := false,
                DisableMetrics := false, DisableLogs := false }
            initialized := false, shutdown := false, onceDone := false,
            hasTracerProvider := false, tracerShutdownFails := false,
            hasMeterProvider := false, meterShutdownFails := false,
            hasTracer := false }) "TestX" =
      (Except.error SpectraErr.notInitialized, [])
    ∧ Spectra.New
        (some
          { config :=
              { ServiceName := "", Endpoint := "", Insecure := false,
                ShutdownTimeout := 0, DisableTraces := false,
                DisableMetrics := false, DisableLogs := false }
            initialized := true, shutdown := true, onceDone := true,
            hasTracerProvider := false, tracerShutdownFails := false,
            hasMeterProvider := false, meterShutdownFails := false,
            hasTracer := false }) "TestX" =
      (Except.error SpectraErr.alreadyShutdown, []) := by
  have h := new_fails_without_session none "TestX"
    { ServiceName := "", Endpoint := "", Insecure := false,
      ShutdownTimeout := 0, DisableTraces := false,
      DisableMetrics := false, DisableLogs := false }
    false false false false false false false metricsGlobals0
  refine ⟨h.1 rfl, ?_, ?_⟩
  · exact (new_fails_without_session _ "TestX"
      { ServiceName := "", Endpoint := "", Insecure := false,
        ShutdownTimeout := 0, DisableTraces := false,
        DisableMetrics := false, DisableLogs := false }
      false false false false false false false metricsGlobals0).2.1 _ rfl rfl
  · exact (new_fails_without_session _ "TestX"
      { ServiceName := "", Endpoint := "", Insecure := false,
        ShutdownTimeout := 0, DisableTraces := false,
        DisableMetrics := false, DisableLogs := false }
      false false false false false false false metricsGlobals0).2.2.1 _ rfl rfl rfl

/-- C7: Shutdown executes its body at most once.  A second call on the
result of a first call is a silent no-op returning the same state and no
effects; n plus one successive calls produce exactly the state and effects
of the first call, so calling Shutdown twice is equivalent to calling it
once; on a fresh session (once-guard not yet fired) each present provider
is released exactly once; and every effect of Shutdown is a provider
release or a log line, never an error return or a panic. -/
theorem shutdown_body_at_most_once (s : Spectra) (n : Nat) :
    Spectra.Shutdown (Spectra.Shutdown s).1 = ((Spectra.Shutdown s).1, [])
    ∧ shutdownTimes (n + 1) s = ((Spectra.Shutdown s).1, (Spectra.Shutdown s).2)
    ∧ (s.onceDone = false →
        List.countP isTracerShutdown (Spectra.Shutdown s).2 =
            (if s.hasTracerProvider then 1 else 0)
          ∧ List.countP isMeterShutdown (Spectra.Shutdown s).2 =
            (if s.hasMeterProvider then 1 else 0))
    ∧ (∀ e ∈ (Spectra.Shutdown s).2,
        e = ShutdownEffect.tracerProviderShutdown
        ∨ e = ShutdownEffect.meterProviderShutdown
        ∨ ∃ m, e = ShutdownEffect.logLine m) := by
  refine ⟨shutdown_of_onceDone _ (shutdown_onceDone s), ?_, ?_, ?_⟩
  · have h2 := shutdownTimes_of_onceDone n (Spectra.Shutdown s).1 (shutdown_onceDone s)
    show (let r := Spectra.Shutdown s
      let r2 := shutdownTimes n r.1
      (r2.1, r.2 ++ r2.2)) = _
    simp only [h2]
    simp
  · intro h
    unfold Spectra.Shutdown
    rw [h]
    by_cases h1 : s.hasTracerProvider <;> by_cases h2 : s.hasMeterProvider <;>
      by_cases h3 : s.tracerShutdownFails <;> by_cases h4 : s.meterShutdownFails <;>
      simp [h1, h2, h3, h4, List.countP_append, List.countP_cons,
        isTracerShutdown, isMeterShutdown]
  · intro e _
    cases e with
    | tracerProviderShutdown => exact Or.inl rfl
    | meterProviderShutdown => exact Or.inr (Or.inl rfl)
    | logLine m => exact Or.inr (Or.inr ⟨m, rfl⟩)

/-- Witness for C7 at a concrete input: on a fresh session holding both
providers whose releases both fail, one call releases each provider
exactly once, and its effects are releases and log lines. -/
theorem shutdown_body_at_most_once_witness :
    List.countP isTracerShutdown
        (Spectra.Shutdown
          { config :=
              { ServiceName := "svc", Endpoint := "grpc://localhost:4317",
                Insecure := true, ShutdownTimeout := 1, DisableTraces := false,
                DisableMetrics := false, DisableLogs := false }
            initialized := true, shutdown := false, onceDone := false,
            hasTracerProvider := true, tracerShutdownFails := true,
            hasMeterProvider := true, meterShutdownFails := true,
            hasTracer := true }).2 = 1
    ∧ (ShutdownEffect.tracerProviderShutdown =
          ShutdownEffect.tracerProviderShutdown
        ∨ ShutdownEffect.tracerProviderShutdown =
          ShutdownEffect.meterProviderShutdown
        ∨ ∃ m, ShutdownEffect.tracerProviderShutdown =
          ShutdownEffect.logLine m) := by
  have h := shutdown_body_at_most_once
    { config :=
        { ServiceName := "svc", Endpoint := "grpc://localhost:4317",
          Insecure := true, ShutdownTimeout := 1, DisableTraces := false,
          DisableMetrics := false, DisableLogs := false }
      initialized := true, shutdown := false, onceDone := false,
      hasTracerProvider := true, tracerShutdownFails := true,
      hasMeterProvider := true, meterShutdownFails := true,
      hasTracer := true } 0
  refine ⟨?_, ?_⟩
  · have h3 := (h.2.2.1 rfl).1
    simpa using h3
  · exact h.2.2.2 ShutdownEffect.tracerProviderShutdown (by decide)

/-- C8: when the wrapper's handle supports nested invocation, Run starts the
child span under the parent wrapper's context, names it with the nested
test's full hierarchical name, the parent name, a slash and the child
name, tags it with the test name attribute equal to that full name and
the test parent attribute equal to the parent wrapper's Name, registers a
cleanup deriving the child status only from the nested test's own failed
and skipped flags (failed gives Error subtest failed, else skipped gives
Ok subtest skipped, else Ok subtest passed), and returns the nested
invocation's own result. -/
theorem run_builds_child_span (t : T) (childName : String)
    (cf cs ret : Bool) :
    (T.Run t childName true cf cs ret).2.2 = ret
    ∧ (T.Run t childName true cf cs ret).1 = t
    ∧ ∃ sub : SubtestRun,
        (T.Run t childName true cf cs ret).2.1 = some sub
        ∧ sub.parentCtxArg = t.ctx
        ∧ sub.spanName = t.Name ++ "/" ++ childName
        ∧ sub.spanAttrs =
            [(attrTestName, t.Name ++ "/" ++ childName),
             (attrTestParent, t.Name)]
        ∧ sub.child.ctx = Ctx.spanCtx t.ctx (t.Name ++ "/" ++ childName)
        ∧ sub.cleanupActs = subtestCleanup cf cs
        ∧ (cf = true →
            sub.cleanupActs =
              [Act.spanSetStatus Code.error "subtest failed", Act.spanEnd])
        ∧ (cf = false → cs = true →
            sub.cleanupActs =
              [Act.spanSetStatus Code.ok "subtest skipped", Act.spanEnd])
        ∧ (cf = false → cs = false →
            sub.cleanupActs =
              [Act.spanSetStatus Code.ok "subtest passed", Act.spanEnd]) := by
  refine ⟨rfl, rfl, ?_⟩
  refine ⟨_, rfl, rfl, rfl, rfl, rfl, rfl, ?_, ?_, ?_⟩
  · intro h
    simp [subtestCleanup, determineSubtestStatus, h]
  · intro h1 h2
    simp [subtestCleanup, determineSubtestStatus, h1, h2]
  · intro h1 h2
    simp [subtestCleanup, determineSubtestStatus, h1, h2]

/-- Witness for C8 at a concrete input: a parent wrapper named TestParent
running a failed child named child yields the child span under the
parent's context named TestParent slash child with the failed subtest
cleanup, and Run returns the runner's result. -/
theorem run_builds_child_span_witness :
    (T.Run (T.mk0 none "TestParent") "child" true true false false).2.2 = false
    ∧ ∃ sub : SubtestRun,
        (T.Run (T.mk0 none "TestParent") "child" true true false
            false).2.1 = some sub
        ∧ sub.spanName = "TestParent/child"
        ∧ sub.cleanupActs =
            [Act.spanSetStatus Code.error "subtest failed", Act.spanEnd] := by
  have h := run_builds_child_span (T.mk0 none "TestParent") "child" true false false
  obtain ⟨sub, h1, _, h3, _, _, _, h7, _, _⟩ := h.2.2
  exact ⟨h.1, sub, h1, h3, h7 rfl⟩

/-- C9 counterexample: the claim that an instrument-construction error is
cached and returned to every caller fails on the code.  Starting from the
zero-value registry, a first initMetrics call against a provider that
rejects the duration histogram returns the histogram error, but a second
call with the identical provider behaviour returns none instead of the
cached error, because the once-guard skips the body and the local error
variable of the Go function starts nil on every call. -/
theorem initMetrics_error_not_cached_cex :
    (initMetrics metricsGlobals0 true false).2 =
      some MetricsErr.createDurationHistogram
    ∧ (initMetrics (initMetrics metricsGlobals0 true false).1 true false).2 =
      none := by
  constructor <;> rfl

/-- C9 amended: initMetrics executes its body at most once per process, so
whatever the sequence of callers and provider behaviours, at most one
instrument set is ever created; the construction error is returned to the
one caller whose invocation executed the body (the histogram error when
the histogram is rejected, else the counter error when the counter is
rejected), while every caller that finds the once-guard already fired
receives none, the error not being cached. -/
theorem initMetrics_once_with_uncached_error
    (calls : List (Bool × Bool)) (h c h2 c2 : Bool) (g : MetricsGlobals) :
    (initMetricsSeq calls metricsGlobals0).1.createdCount ≤ 1
    ∧ (g.onceDone = true → initMetrics g h2 c2 = (g, none))
    ∧ (h = true →
        (initMetrics metricsGlobals0 h c).2 =
          some MetricsErr.createDurationHistogram)
    ∧ (h = false → c = true →
        (initMetrics metricsGlobals0 h c).2 =
          some MetricsErr.createCountCounter)
    ∧ (h = false → c = false →
        initMetrics metricsGlobals0 h c =
          ({ onceDone := true, testMetricsSet := true, createdCount := 1 },
            none)) := by
  refine ⟨?_, ?_, ?_, ?_, ?_⟩
  · exact (initMetricsSeq_invariant calls metricsGlobals0
      ⟨fun _ => rfl, Nat.zero_le 1⟩).2
  · intro hg
    unfold initMetrics
    simp [hg]
  · intro hh
    subst hh
    rfl
  · intro hh hcc
    subst hh
    subst hcc
    rfl
  · intro hh hcc
    subst hh
    subst hcc
    rfl

/-- Witness for C9 amended at concrete inputs: after a first failing call
from the zero-value registry, a second call returns none; a first call
rejecting the histogram returns the histogram error; a clean first call
creates the single instrument set. -/
theorem initMetrics_once_with_uncached_error_witness :
    (initMetricsSeq [(true, false), (true, false)] metricsGlobals0).1.createdCount ≤ 1
    ∧ initMetrics
        { onceDone := true, testMetricsSet := false, createdCount := 0 }
        true false =
      ({ onceDone := true, testMetricsSet := false, createdCount := 0 }, none)
    ∧ (initMetrics metricsGlobals0 true false).2 =
      some MetricsErr.createDurationHistogram
    ∧ initMetrics metricsGlobals0 false false =
      ({ onceDone := true, testMetricsSet := true, createdCount := 1 }, none) := by
  have ha := initMetrics_once_with_uncached_error [(true, false), (true, false)]
    true false true false
    { onceDone := true, testMetricsSet := false, createdCount := 0 }
  have hb := initMetrics_once_with_uncached_error [(true, false), (true, false)]
    false false true false
    { onceDone := true, testMetricsSet := false, createdCount := 0 }
  exact ⟨ha.1, ha.2.1 rfl, ha.2.2.1 rfl, hb.2.2.2.2 rfl rfl⟩
